import Mathlib

/-!
Shallow embedding of the petverse backend (src/backend.py) and proofs about it.

Modelling conventions:
- Python floats are modelled as rationals (ℚ); Python ints as ℤ.
- Wall-clock reads (time.time()) are passed in as an explicit argument named now.
- The random gift roll is passed in as an oracle argument g : Option (ℤ × ℚ):
  none means the 5 percent roll failed, some (amt, t) means it granted amt coins
  at clock value t.
- The local calendar date of a timestamp (time.strftime of time.localtime) is an
  abstract argument ld : ℚ → String.
- Python str.lower and str.strip are modelled by executable ASCII versions.
- Human-readable message strings are kept verbatim where they are plain
  literals; numeric interpolation of f-strings is elided to a fixed literal.
- int(x) truncation of an integer ratio is Int.tdiv; Python floor division of
  ints is Int.fdiv.
-/

namespace Petverse

/-- Configuration constants from the top of backend.py. Fractional float
constants are written as exact rationals. -/
def HUNGER_INCREASE_PER_HOUR : ℚ := 2

def ENERGY_RECOVER_PER_HOUR : ℚ := 1

def HAPPINESS_DECAY_PER_HOUR : ℚ := 1/2

def FEED_COST : ℤ := 5

def DAILY_REWARD_COINS : ℤ := 20

def PLAY_COIN_REWARD : ℤ := 1

def REST_COIN_REWARD : ℤ := 1

/-- A shop item record. The Python dicts carry different key sets; keys read
with dict.get and a default of 0 are modelled as fields that are 0 for items
that lack the key, matching the source reads exactly. -/
structure Item where
  price : ℤ
  hunger_restore : ℚ
  happiness : ℚ
  energy_cost : ℚ
  energy_restore : ℚ
deriving Repr, DecidableEq

/-- SHOP_ITEMS from backend.py. -/
def SHOP_ITEMS : String → Option Item
  | "food" => some { price := 5, hunger_restore := 25, happiness := 5, energy_cost := 0, energy_restore := 0 }
  | "toy" => some { price := 10, hunger_restore := 0, happiness := 20, energy_cost := 5, energy_restore := 0 }
  | "energy_drink" => some { price := 8, hunger_restore := 0, happiness := 2, energy_cost := 0, energy_restore := 30 }
  | _ => none

/-- A species template from PetFactory.TEMPLATES. -/
structure Template where
  max_energy : ℚ
  base_hunger : ℚ
  base_happiness : ℚ
  evolve_at : ℤ
  evolution : String
deriving Repr, DecidableEq

def catTemplate : Template :=
  { max_energy := 100, base_hunger := 30, base_happiness := 60, evolve_at := 5, evolution := "Big Cat" }

/-- PetFactory.TEMPLATES from backend.py. -/
def TEMPLATES : String → Option Template
  | "cat" => some catTemplate
  | "dog" => some { max_energy := 120, base_hunger := 35, base_happiness := 55, evolve_at := 6, evolution := "Wolfhound" }
  | "dragon" => some { max_energy := 200, base_hunger := 20, base_happiness := 65, evolve_at := 4, evolution := "Elder Dragon" }
  | _ => none

/-- The Pet dataclass. name, species and evolution are Option String because
Pet.from_dict can populate them with Python None when a field is absent. -/
@[ext] structure Pet where
  name : Option String
  species : Option String
  hunger : ℚ
  happiness : ℚ
  energy : ℚ
  max_energy : ℚ
  level : ℤ
  xp : ℤ
  coins : ℤ
  last_updated : ℚ
  evolve_at : ℤ
  evolution : Option String
  evolved : Bool
  last_daily_claim : ℚ
  last_gift_time : ℚ
  last_gift_amount : ℤ
deriving Repr, DecidableEq

/-- ASCII case folding for one character, modelling Python str.lower on the
ASCII inputs the catalog uses. -/
def asciiLower (c : Char) : Char :=
  if 65 ≤ c.toNat ∧ c.toNat ≤ 90 then Char.ofNat (c.toNat + 32) else c

/-- Python str.lower, modelled over ASCII. -/
def pyLower (s : String) : String := ⟨s.data.map asciiLower⟩

/-- Python str.strip: drop whitespace from both ends. -/
def pyStrip (s : String) : String :=
  ⟨((s.data.dropWhile Char.isWhitespace).reverse.dropWhile Char.isWhitespace).reverse⟩

/-- PetFactory.create_pet. Dataclass defaults fill the fields the factory does
not pass; the last_updated default time.time() is the now argument. -/
def factory_create_pet (now : ℚ) (name species : String) : Pet :=
  let spec := pyLower species
  let template := (TEMPLATES spec).getD catTemplate
  { name := some name
    species := some spec
    hunger := template.base_hunger
    happiness := template.base_happiness
    energy := template.max_energy
    max_energy := template.max_energy
    level := 1
    xp := 0
    coins := 50
    last_updated := now
    evolve_at := template.evolve_at
    evolution := some template.evolution
    evolved := false
    last_daily_claim := 0
    last_gift_time := 0
    last_gift_amount := 0 }

/-- Pet._apply_time_decay. -/
def applyTimeDecay (p : Pet) (seconds : ℚ) : Pet :=
  let hours := seconds / 3600
  if hours ≤ 0 then p
  else
    let p1 := { p with hunger := min 100 (p.hunger + HUNGER_INCREASE_PER_HOUR * hours) }
    let p2 := { p1 with energy := max 0 (min p1.max_energy (p1.energy + ENERGY_RECOVER_PER_HOUR * hours)) }
    if p2.hunger > 70 ∨ p2.energy < 20 then
      { p2 with happiness := max 0 (p2.happiness - HAPPINESS_DECAY_PER_HOUR * hours) }
    else p2

/-- Pet._maybe_random_gift, with the random roll supplied by the oracle g. -/
def maybeGift (p : Pet) (g : Option (ℤ × ℚ)) : Pet :=
  match g with
  | some (amt, t) => { p with coins := p.coins + amt, last_gift_time := t, last_gift_amount := amt }
  | none => p

/-- Pet.refresh: apply decay and the gift roll when wall-clock time advanced. -/
def refresh (p : Pet) (now : ℚ) (g : Option (ℤ × ℚ)) : Pet :=
  let elapsed := now - p.last_updated
  if 0 < elapsed then
    let p1 := applyTimeDecay p elapsed
    let p2 := maybeGift p1 g
    { p2 with last_updated := now }
  else p

/-- The while loop of Pet._gain_xp, with an explicit fuel bound. Each pass
subtracts 100 from xp, so fuel of xp.toNat always suffices; the lemma
gainLoopFuel_spec below proves the fuel never runs out and gives the closed
form of the loop. Returns (xp, level, coins, leveled_up). -/
def gainLoopFuel : ℕ → ℤ → ℤ → ℤ → Bool → ℤ × ℤ × ℤ × Bool
  | 0, xp, level, coins, leveled => (xp, level, coins, leveled)
  | fuel + 1, xp, level, coins, leveled =>
    if 100 ≤ xp then gainLoopFuel fuel (xp - 100) (level + 1) (coins + 20) true
    else (xp, level, coins, leveled)

/-- Pet._gain_xp. Returns the updated pet and the evolution flag the Python
method returns. -/
def gain_xp (p : Pet) (amount : ℤ) : Pet × Bool :=
  let total := p.xp + amount
  let r := gainLoopFuel total.toNat total p.level p.coins false
  let p1 := { p with xp := r.1, level := r.2.1, coins := r.2.2.1 }
  if r.2.2.2 = true ∧ p.evolved = false ∧ p.evolve_at ≤ p1.level then
    ({ p1 with evolved := true }, true)
  else (p1, false)

/-- The body of Pet.feed after the initial self.refresh() call. The float
factor 0.2 is the rational 1/5. -/
def feedBody (p : Pet) (use_item : Bool) (food_strength : ℤ) : Pet × Bool × String :=
  if use_item = false ∧ p.coins < FEED_COST then
    (p, false, "Not enough coins to buy food.")
  else
    let p1 := if use_item = false then { p with coins := p.coins - FEED_COST } else p
    let p2 := { p1 with hunger := max 0 (p1.hunger - (food_strength : ℚ)) }
    let p3 := { p2 with happiness := min 100 (p2.happiness + (food_strength : ℚ) * (1/5)) }
    ((gain_xp p3 10).1, true, "Fed")

/-- Pet.feed. -/
def feed (p : Pet) (now : ℚ) (g : Option (ℤ × ℚ)) (use_item : Bool) (food_strength : ℤ) : Pet × Bool × String :=
  feedBody (refresh p now g) use_item food_strength

/-- The body of Pet.play after the initial self.refresh() call. -/
def playBody (p : Pet) (minutes : ℤ) : Pet × Bool × String :=
  let energy_cost : ℚ := (minutes : ℚ) * (1/2)
  if p.energy < energy_cost then
    (p, false, "too tired to play.")
  else
    let p1 := { p with energy := max 0 (p.energy - energy_cost) }
    let p2 := { p1 with happiness := min 100 (p1.happiness + (minutes : ℚ) * (3/5)) }
    let p3 := { p2 with coins := p2.coins + PLAY_COIN_REWARD }
    ((gain_xp p3 (15 + Int.tdiv minutes 5)).1, true, "Played")

/-- Pet.play. -/
def play (p : Pet) (now : ℚ) (g : Option (ℤ × ℚ)) (minutes : ℤ) : Pet × Bool × String :=
  playBody (refresh p now g) minutes

/-- The body of Pet.rest after the initial self.refresh() call. -/
def restBody (p : Pet) (minutes : ℤ) : Pet × Bool × String :=
  let energy_gain : ℚ := (minutes : ℚ) * (4/5)
  let p1 := { p with energy := min p.max_energy (p.energy + energy_gain) }
  let p2 := { p1 with happiness := min 100 (p1.happiness + (minutes : ℚ) * (3/100)) }
  let p3 := { p2 with coins := p2.coins + REST_COIN_REWARD }
  (p3, true, "rested")

/-- Pet.rest. -/
def rest (p : Pet) (now : ℚ) (g : Option (ℤ × ℚ)) (minutes : ℤ) : Pet × Bool × String :=
  restBody (refresh p now g) minutes

/-- The body of Pet.do_job after the initial self.refresh() call. earned is
int(minutes * (1/5)) which on integer minutes is truncation toward zero. -/
def doJobBody (p : Pet) (minutes : ℤ) : Pet × Bool × String :=
  if minutes ≤ 0 then
    (p, false, "Invalid job duration.")
  else
    let energy_cost : ℚ := (minutes : ℚ) * (3/10)
    if p.energy < energy_cost then
      (p, false, "too tired to work. Needs more energy.")
    else
      let earned : ℤ := Int.tdiv minutes 5
      let p1 := { p with energy := max 0 (p.energy - energy_cost) }
      let p2 := { p1 with coins := p1.coins + earned }
      let xp_gain : ℤ := max 1 (Int.fdiv minutes 10)
      ((gain_xp p2 xp_gain).1, true, "worked")

/-- Pet.do_job. -/
def do_job (p : Pet) (now : ℚ) (g : Option (ℤ × ℚ)) (minutes : ℤ) : Pet × Bool × String :=
  doJobBody (refresh p now g) minutes

/-- Pet.daily_reward. ld maps a timestamp to its local calendar date string;
now is the current wall clock. Note the source does not call refresh here. -/
def daily_reward (ld : ℚ → String) (now : ℚ) (p : Pet) : Pet × Bool × String :=
  let today := ld now
  let last_claim_day : Option String :=
    if p.last_daily_claim ≠ 0 then some (ld p.last_daily_claim) else none
  if last_claim_day ≠ some today then
    ({ p with coins := p.coins + DAILY_REWARD_COINS, last_daily_claim := now }, true,
      "Daily reward claimed! +20 coins.")
  else
    (p, false, "Daily reward already claimed today.")

/-- Pet.buy_item. Note the source does not call refresh here, and the toy
branch deducts the price before the energy check and refunds it on failure. -/
def buy_item (p : Pet) (item_key : String) : Pet × Bool × String :=
  match SHOP_ITEMS item_key with
  | none => (p, false, "Invalid item.")
  | some item =>
    if p.coins < item.price then
      (p, false, "Not enough coins.")
    else
      let p1 := { p with coins := p.coins - item.price }
      if item_key = "food" then
        let p2 := { p1 with hunger := max 0 (p1.hunger - item.hunger_restore) }
        let p3 := { p2 with happiness := min 100 (p2.happiness + item.happiness) }
        ((gain_xp p3 5).1, true, "Used food.")
      else if item_key = "toy" then
        if p1.energy < item.energy_cost then
          ({ p1 with coins := p1.coins + item.price }, false, "too tired to use the toy.")
        else
          let p2 := { p1 with energy := max 0 (p1.energy - item.energy_cost) }
          let p3 := { p2 with happiness := min 100 (p2.happiness + item.happiness) }
          ((gain_xp p3 10).1, true, "Played with toy.")
      else if item_key = "energy_drink" then
        let p2 := { p1 with energy := min p1.max_energy (p1.energy + item.energy_restore) }
        let p3 := { p2 with happiness := min 100 (p2.happiness + item.happiness) }
        ((gain_xp p3 7).1, true, "Drank energy drink.")
      else
        (p1, false, "Unknown item effect.")

/-- The status snapshot record returned by Pet.status. Display rounding of the
numeric fields to one decimal and time.ctime formatting are elided;
gift_message records whether a gift message is present. -/
structure Status where
  name : Option String
  species : Option String
  evolution : Option String
  hunger : ℚ
  happiness : ℚ
  energy : ℚ
  level : ℤ
  xp : ℤ
  coins : ℤ
  last_updated : ℚ
  gift_message : Bool
  last_daily_claim : Option ℚ
deriving Repr, DecidableEq

/-- The body of Pet.status after the initial self.refresh() call. -/
def statusBody (p : Pet) (now : ℚ) : Pet × Status :=
  (p,
    { name := p.name
      species := p.species
      evolution := if p.evolved = true then p.evolution else p.species
      hunger := p.hunger
      happiness := p.happiness
      energy := p.energy
      level := p.level
      xp := p.xp
      coins := p.coins
      last_updated := p.last_updated
      gift_message := if p.last_gift_time ≠ 0 ∧ now - p.last_gift_time < 5 then true else false
      last_daily_claim := if p.last_daily_claim ≠ 0 then some p.last_daily_claim else none })

/-- Pet.status. -/
def status (p : Pet) (now : ℚ) (g : Option (ℤ × ℚ)) : Pet × Status :=
  statusBody (refresh p now g) now

/-- One pet entry of the saved JSON document. A field of value none is absent
from the dict; for last_updated, some none is a present value that float()
cannot convert (PetWorld.load falls back to the current time there), and
some (some q) is a stored numeric timestamp. name, species and evolution are
plain Option String because dict.get treats an absent key and a stored null
the same way. -/
structure PetDoc where
  name : Option String
  species : Option String
  hunger : Option ℚ
  happiness : Option ℚ
  energy : Option ℚ
  max_energy : Option ℚ
  level : Option ℤ
  xp : Option ℤ
  coins : Option ℤ
  last_updated : Option (Option ℚ)
  evolve_at : Option ℤ
  evolution : Option String
  evolved : Option Bool
  last_daily_claim : Option ℚ
  last_gift_time : Option ℚ
  last_gift_amount : Option ℤ
deriving Repr, DecidableEq

/-- Pet.to_dict: dataclasses.asdict serializes every field. -/
def to_dict (p : Pet) : PetDoc :=
  { name := p.name
    species := p.species
    hunger := some p.hunger
    happiness := some p.happiness
    energy := some p.energy
    max_energy := some p.max_energy
    level := some p.level
    xp := some p.xp
    coins := some p.coins
    last_updated := some (some p.last_updated)
    evolve_at := some p.evolve_at
    evolution := p.evolution
    evolved := some p.evolved
    last_daily_claim := some p.last_daily_claim
    last_gift_time := some p.last_gift_time
    last_gift_amount := some p.last_gift_amount }

/-- Pet.from_dict: each field falls back to its documented default when absent.
The default for last_updated is time.time(), passed here as now; an unreadable
stored last_updated is also mapped to now, since PetWorld.load immediately
overwrites the field with float(value) or time.time() on conversion failure. -/
def from_dict (now : ℚ) (d : PetDoc) : Pet :=
  { name := d.name
    species := d.species
    hunger := d.hunger.getD 50
    happiness := d.happiness.getD 50
    energy := d.energy.getD (d.max_energy.getD 100)
    max_energy := d.max_energy.getD 100
    level := d.level.getD 1
    xp := d.xp.getD 0
    coins := d.coins.getD 50
    last_updated := (d.last_updated.getD none).getD now
    evolve_at := d.evolve_at.getD 999
    evolution := d.evolution
    evolved := d.evolved.getD false
    last_daily_claim := d.last_daily_claim.getD 0
    last_gift_time := d.last_gift_time.getD 0
    last_gift_amount := d.last_gift_amount.getD 0 }

/-- One entry of PetWorld.load: Pet.from_dict followed by the coercion of the
stored last_updated through float(), falling back to time.time(). -/
def loadPet (now : ℚ) (d : PetDoc) : Pet :=
  let pet := from_dict now d
  { pet with
    last_updated :=
      match d.last_updated with
      | some (some q) => q
      | _ => now }

/-- PetWorld.pets, a dict keyed by pet name, as an association list. -/
abbrev World := List (String × Pet)

/-- Dict lookup self.pets.get(name). -/
def lookupPet : World → String → Option Pet
  | [], _ => none
  | (m, q) :: rest, n => if m = n then some q else lookupPet rest n

/-- Dict assignment self.pets[name] = pet: overwrite in place or append. -/
def setPet : World → String → Pet → World
  | [], n, p => [(n, p)]
  | (m, q) :: rest, n, p => if m = n then (n, p) :: rest else (m, q) :: setPet rest n p

/-- PetWorld.create_pet. The created message interpolates the name and the
species; the surrounding quote characters of the f-string are elided. -/
def world_create_pet (w : World) (now : ℚ) (name species : String) : World × Bool × String :=
  let name := pyStrip name
  if name.isEmpty then
    (w, false, "Pet name cannot be empty.")
  else if (lookupPet w name).isSome then
    (w, false, "A pet with that name already exists.")
  else
    (setPet w name (factory_create_pet now name species), true,
      "Pet " ++ name ++ " the " ++ species ++ " created.")

/-- PetWorld.save: serialize every pet of the registry. -/
def saveWorld (w : World) : List (String × PetDoc) :=
  w.map (fun e => (e.1, to_dict e.2))

/-- PetWorld.load: read every entry of the document into the registry. -/
def loadWorld (now : ℚ) (w : World) (docs : List (String × PetDoc)) : World :=
  docs.foldl (fun acc e => setPet acc e.1 (loadPet now e.2)) w

/-! Helper lemmas about the gain loop and refresh. -/

/-- Closed form of the xp while loop: with fuel at least xp the loop never runs
out, and it fires once per 100 xp crossed, each time granting 20 coins and one
level. -/
theorem gainLoopFuel_spec (fuel : ℕ) (xp level coins : ℤ) (b : Bool)
    (h0 : 0 ≤ xp) (hf : xp ≤ (fuel : ℤ)) :
    gainLoopFuel fuel xp level coins b =
      (xp % 100, level + xp / 100, coins + 20 * (xp / 100), b || decide (100 ≤ xp)) := by
  induction fuel generalizing xp level coins b with
  | zero =>
    have hx : xp = 0 := by omega
    subst hx
    simp [gainLoopFuel]
  | succ f ih =>
    rw [gainLoopFuel]
    by_cases h : 100 ≤ xp
    · rw [if_pos h, ih (xp - 100) (level + 1) (coins + 20) true (by omega) (by push_cast at hf ⊢; omega)]
      simp only [Prod.mk.injEq]
      refine ⟨by omega, by omega, by omega, ?_⟩
      simp [h]
    · rw [if_neg h]
      simp only [Prod.mk.injEq]
      refine ⟨by omega, by omega, by omega, ?_⟩
      simp [h]

/-- Characterization of Pet._gain_xp for a nonnegative resulting total. -/
theorem gain_xp_spec (p : Pet) (a : ℤ) (h : 0 ≤ p.xp + a) :
    (gain_xp p a).1.xp = (p.xp + a) % 100
    ∧ (gain_xp p a).1.level = p.level + (p.xp + a) / 100
    ∧ (gain_xp p a).1.coins = p.coins + 20 * ((p.xp + a) / 100)
    ∧ ((gain_xp p a).1.evolved = true ↔
        (p.evolved = true ∨ (100 ≤ p.xp + a ∧ p.evolve_at ≤ p.level + (p.xp + a) / 100))) := by
  unfold gain_xp
  dsimp only
  rw [gainLoopFuel_spec _ _ _ _ _ h (by omega)]
  dsimp only
  split_ifs with hc
  · obtain ⟨hc1, hc2, hc3⟩ := hc
    simp only [Bool.false_or, decide_eq_true_eq] at hc1
    refine ⟨rfl, rfl, rfl, ?_⟩
    simp [hc1, hc3]
  · refine ⟨rfl, rfl, rfl, ?_⟩
    constructor
    · intro hev
      exact Or.inl hev
    · rintro (hev | ⟨h100, hth⟩)
      · exact hev
      · cases hpe : p.evolved with
        | true => rfl
        | false => exact absurd ⟨by simp [h100], hpe, hth⟩ hc

@[simp] theorem gain_xp_hunger (p : Pet) (a : ℤ) : (gain_xp p a).1.hunger = p.hunger := by
  unfold gain_xp; dsimp only; split <;> rfl

@[simp] theorem gain_xp_happiness (p : Pet) (a : ℤ) : (gain_xp p a).1.happiness = p.happiness := by
  unfold gain_xp; dsimp only; split <;> rfl

@[simp] theorem gain_xp_energy (p : Pet) (a : ℤ) : (gain_xp p a).1.energy = p.energy := by
  unfold gain_xp; dsimp only; split <;> rfl

@[simp] theorem gain_xp_max_energy (p : Pet) (a : ℤ) : (gain_xp p a).1.max_energy = p.max_energy := by
  unfold gain_xp; dsimp only; split <;> rfl

@[simp] theorem gain_xp_last_updated (p : Pet) (a : ℤ) : (gain_xp p a).1.last_updated = p.last_updated := by
  unfold gain_xp; dsimp only; split <;> rfl

@[simp] theorem refresh_xp (p : Pet) (now : ℚ) (g : Option (ℤ × ℚ)) :
    (refresh p now g).xp = p.xp := by
  rcases g with _ | ⟨amt, t⟩ <;>
    simp only [refresh, applyTimeDecay, maybeGift] <;> split_ifs <;> rfl

@[simp] theorem refresh_level (p : Pet) (now : ℚ) (g : Option (ℤ × ℚ)) :
    (refresh p now g).level = p.level := by
  rcases g with _ | ⟨amt, t⟩ <;>
    simp only [refresh, applyTimeDecay, maybeGift] <;> split_ifs <;> rfl

@[simp] theorem refresh_evolved (p : Pet) (now : ℚ) (g : Option (ℤ × ℚ)) :
    (refresh p now g).evolved = p.evolved := by
  rcases g with _ | ⟨amt, t⟩ <;>
    simp only [refresh, applyTimeDecay, maybeGift] <;> split_ifs <;> rfl

@[simp] theorem refresh_max_energy (p : Pet) (now : ℚ) (g : Option (ℤ × ℚ)) :
    (refresh p now g).max_energy = p.max_energy := by
  rcases g with _ | ⟨amt, t⟩ <;>
    simp only [refresh, applyTimeDecay, maybeGift] <;> split_ifs <;> rfl

/-- The documented clamp ranges of the three gauge attributes of a Pet. -/
def Ranged (p : Pet) : Prop :=
  0 ≤ p.hunger ∧ p.hunger ≤ 100 ∧ 0 ≤ p.happiness ∧ p.happiness ≤ 100
    ∧ 0 ≤ p.energy ∧ p.energy ≤ p.max_energy

instance (p : Pet) : Decidable (Ranged p) := by unfold Ranged; infer_instance

theorem applyTimeDecay_ranged (p : Pet) (s : ℚ) (hp : Ranged p) : Ranged (applyTimeDecay p s) := by
  obtain ⟨h1, h2, h3, h4, h5, h6⟩ := hp
  have hm : (0 : ℚ) ≤ p.max_energy := le_trans h5 h6
  unfold applyTimeDecay HUNGER_INCREASE_PER_HOUR ENERGY_RECOVER_PER_HOUR HAPPINESS_DECAY_PER_HOUR
  dsimp only
  split_ifs with hh hcond
  · exact ⟨h1, h2, h3, h4, h5, h6⟩
  all_goals
    have hhrs : 0 ≤ s / 3600 := le_of_not_le hh
  · refine ⟨le_min (by norm_num) (by nlinarith), min_le_left _ _,
      le_max_left _ _, max_le (by norm_num) (by nlinarith),
      le_max_left _ _, max_le hm (min_le_left _ _)⟩
  · refine ⟨le_min (by norm_num) (by nlinarith), min_le_left _ _, h3, h4,
      le_max_left _ _, max_le hm (min_le_left _ _)⟩

theorem maybeGift_ranged (p : Pet) (g : Option (ℤ × ℚ)) (hp : Ranged p) : Ranged (maybeGift p g) := by
  rcases g with _ | ⟨amt, t⟩ <;> exact hp

theorem refresh_ranged (p : Pet) (now : ℚ) (g : Option (ℤ × ℚ)) (hp : Ranged p) :
    Ranged (refresh p now g) := by
  unfold refresh
  dsimp only
  split_ifs with he
  · exact maybeGift_ranged _ _ (applyTimeDecay_ranged _ _ hp)
  · exact hp

theorem gain_xp_ranged (p : Pet) (a : ℤ) (hp : Ranged p) : Ranged (gain_xp p a).1 := by
  obtain ⟨h1, h2, h3, h4, h5, h6⟩ := hp
  refine ⟨?_, ?_, ?_, ?_, ?_, ?_⟩ <;> simp [h1, h2, h3, h4, h5, h6]

/-! Concrete example pets used by counterexamples and witnesses. -/

/-- A freshly created cat one hour of wall-clock time after its creation. -/
def petC1 : Pet :=
  { name := some "tom", species := some "cat", hunger := 50, happiness := 60, energy := 100,
    max_energy := 100, level := 1, xp := 0, coins := 50, last_updated := 0, evolve_at := 5,
    evolution := some "Big Cat", evolved := false, last_daily_claim := 0, last_gift_time := 0,
    last_gift_amount := 0 }

/-- C1 counterexample: with one hour elapsed (now = 3600, last_updated = 0),
buy_item ignores the pending decay entirely: its result keeps last_updated = 0
and subtracts the food strength from the undecayed hunger 50, whereas the
refresh the claim requires would first advance last_updated to 3600 and hunger
to 52, and a refresh-first call would end at hunger 27, not 25. daily_reward
likewise never touches last_updated. -/
theorem c1_counterexample :
    (buy_item petC1 "food").1.last_updated = 0
    ∧ (buy_item petC1 "food").1.hunger = 25
    ∧ (refresh petC1 3600 none).last_updated = 3600
    ∧ (refresh petC1 3600 none).hunger = 52
    ∧ (buy_item (refresh petC1 3600 none) "food").1.hunger = 27
    ∧ (daily_reward (fun _ => "day0") 3600 petC1).1.last_updated = 0 := by
  refine ⟨?_, ?_, ?_, ?_, ?_, ?_⟩ <;>
    norm_num [buy_item, SHOP_ITEMS, refresh, applyTimeDecay, maybeGift, daily_reward,
      HUNGER_INCREASE_PER_HOUR, ENERGY_RECOVER_PER_HOUR, HAPPINESS_DECAY_PER_HOUR,
      DAILY_REWARD_COINS, petC1] <;>
    simp

/-- C1 (amended): feed, play, rest, do_job and the status snapshot each factor
as the time-decay refresh routine followed by the rest of the method body, but
buy_item and daily_reward do not apply refresh at all: their results always
keep last_updated unchanged, so pending decay is neither applied nor recorded
before they validate or mutate. -/
theorem c1_refresh_discipline :
    (∀ p now g ui fs, feed p now g ui fs = feedBody (refresh p now g) ui fs)
    ∧ (∀ p now g m, play p now g m = playBody (refresh p now g) m)
    ∧ (∀ p now g m, rest p now g m = restBody (refresh p now g) m)
    ∧ (∀ p now g m, do_job p now g m = doJobBody (refresh p now g) m)
    ∧ (∀ p now g, status p now g = statusBody (refresh p now g) now)
    ∧ (∀ p k, (buy_item p k).1.last_updated = p.last_updated)
    ∧ (∀ ld now p, (daily_reward ld now p).1.last_updated = p.last_updated) := by
  refine ⟨fun p now g ui fs => rfl, fun p now g m => rfl, fun p now g m => rfl,
    fun p now g m => rfl, fun p now g => rfl, ?_, ?_⟩
  · intro p k
    unfold buy_item
    rcases hit : SHOP_ITEMS k with _ | item
    · rfl
    · dsimp only
      split_ifs <;> simp
  · intro ld now p
    unfold daily_reward
    dsimp only
    split_ifs <;> rfl

/-- C2: on any failing precondition the failing call mutates nothing of its
own: the returned state is exactly the state left by the mandatory time-decay
refresh that runs before validation (and for buy_item and daily_reward, which
never refresh, exactly the original state). In particular coins survive the
toy-branch deduct-then-refund unchanged and no field is left half-updated. -/
theorem c2_failure_atomicity (p : Pet) (now : ℚ) (g : Option (ℤ × ℚ)) (ui : Bool)
    (fs m mj : ℤ) (k : String) (ld : ℚ → String) :
    ((feed p now g ui fs).2.1 = false → (feed p now g ui fs).1 = refresh p now g)
    ∧ ((play p now g m).2.1 = false → (play p now g m).1 = refresh p now g)
    ∧ ((do_job p now g mj).2.1 = false → (do_job p now g mj).1 = refresh p now g)
    ∧ ((buy_item p k).2.1 = false → (buy_item p k).1 = p)
    ∧ ((daily_reward ld now p).2.1 = false → (daily_reward ld now p).1 = p) := by
  refine ⟨?_, ?_, ?_, ?_, ?_⟩
  · unfold feed feedBody
    dsimp only
    split_ifs with h1 h2
    · intro _
      rfl
    · intro h
      exact h.elim
    · intro h
      exact h.elim
  · unfold play playBody
    dsimp only
    split_ifs with h1
    · intro _
      rfl
    · intro h
      simp at h
  · unfold do_job doJobBody
    dsimp only
    split_ifs with h1 h2
    · intro _
      rfl
    · intro _
      rfl
    · intro h
      simp at h
  · unfold buy_item
    rcases hit : SHOP_ITEMS k with _ | item
    · intro _
      rfl
    · dsimp only
      split_ifs with h1 h2 h3 h4 h5
      · intro _
        rfl
      · intro h
        simp at h
      · -- toy branch with too little energy: the price refund restores coins
        intro _
        ext <;> simp
      · intro h
        simp at h
      · intro h
        simp at h
      · -- the final fallthrough of the method body is unreachable: a found key
        -- is one of the three catalog keys
        intro _
        exfalso
        unfold SHOP_ITEMS at hit
        split at hit <;> simp_all
  · unfold daily_reward
    dsimp only
    split_ifs with h1 h2 h3
    · intro h
      exact h.elim
    · intro _
      rfl
    · intro h
      exact h.elim
    · intro _
      rfl

/-- A pet with plenty of coins but too little energy for the toy. -/
def petC2 : Pet :=
  { name := some "tom", species := some "cat", hunger := 50, happiness := 60, energy := 3,
    max_energy := 100, level := 1, xp := 0, coins := 50, last_updated := 0, evolve_at := 5,
    evolution := some "Big Cat", evolved := false, last_daily_claim := 0, last_gift_time := 0,
    last_gift_amount := 0 }

/-- C2 witness: the toy purchase on a tired pet fails and returns exactly the
original pet, coins included. -/
theorem c2_failure_atomicity_witness :
    (buy_item petC2 "toy").2.1 = false ∧ (buy_item petC2 "toy").1 = petC2 := by
  have hfail : (buy_item petC2 "toy").2.1 = false := by
    norm_num [buy_item, SHOP_ITEMS, petC2] <;> simp
  exact ⟨hfail, (c2_failure_atomicity petC2 0 none false 0 0 0 "toy" (fun _ => "day0")).2.2.2.1 hfail⟩

/-- A pet with every gauge attribute inside its documented range. -/
def petC3 : Pet :=
  { name := some "rex", species := some "dog", hunger := 50, happiness := 60, energy := 100,
    max_energy := 100, level := 1, xp := 0, coins := 50, last_updated := 0, evolve_at := 6,
    evolution := some "Wolfhound", evolved := false, last_daily_claim := 0, last_gift_time := 0,
    last_gift_amount := 0 }

/-- C3 counterexample: rest accepts any minutes argument, and a negative
duration drives energy far below 0 — rest(-1000) on an in-range pet succeeds
and leaves energy = -700, violating the claimed clamp for an action call with
arbitrary argument values. -/
theorem c3_counterexample :
    Ranged petC3
    ∧ (rest petC3 0 none (-1000)).2.1 = true
    ∧ (rest petC3 0 none (-1000)).1.energy = -700
    ∧ ¬ Ranged (rest petC3 0 none (-1000)).1 := by
  have hen : (rest petC3 0 none (-1000)).1.energy = -700 := by
    norm_num [rest, restBody, refresh, petC3]
  refine ⟨by norm_num [Ranged, petC3], ?_, hen, ?_⟩
  · norm_num [rest, restBody, refresh, petC3]
  · intro hr
    obtain ⟨_, _, _, _, h5, _⟩ := hr
    rw [hen] at h5
    norm_num at h5

/-- C3 (amended): starting from attributes inside their documented ranges,
every action call keeps hunger and happiness in [0,100] and energy in
[0, max_energy], provided the caller-supplied numeric arguments that reach an
arithmetic update are nonnegative: the food_strength of feed and the minutes of play and rest. do_job needs no such restriction because it rejects non-positive
durations, and buy_item and daily_reward take no numeric argument. -/
theorem c3_clamp_invariants (p : Pet) (now : ℚ) (g : Option (ℤ × ℚ)) (ui : Bool)
    (fs m mr mj : ℤ) (k : String) (ld : ℚ → String)
    (hp : Ranged p) (hfs : 0 ≤ fs) (hm : 0 ≤ m) (hmr : 0 ≤ mr) :
    Ranged (feed p now g ui fs).1 ∧ Ranged (play p now g m).1 ∧ Ranged (rest p now g mr).1
    ∧ Ranged (do_job p now g mj).1 ∧ Ranged (buy_item p k).1
    ∧ Ranged (daily_reward ld now p).1 := by
  have hq := refresh_ranged p now g hp
  have hfsq : (0 : ℚ) ≤ (fs : ℚ) := by exact_mod_cast hfs
  have hmq : (0 : ℚ) ≤ (m : ℚ) := by exact_mod_cast hm
  have hmrq : (0 : ℚ) ≤ (mr : ℚ) := by exact_mod_cast hmr
  obtain ⟨a1, a2, a3, a4, a5, a6⟩ := hq
  have ham : (0 : ℚ) ≤ (refresh p now g).max_energy := le_trans a5 a6
  refine ⟨?_, ?_, ?_, ?_, ?_, ?_⟩
  · -- feed
    unfold feed feedBody
    dsimp only
    split_ifs with h1 h2
    · exact ⟨a1, a2, a3, a4, a5, a6⟩
    all_goals
      apply gain_xp_ranged
      refine ⟨le_max_left _ _, max_le (by norm_num) (by linarith),
        le_min (by norm_num) (by nlinarith), min_le_left _ _, a5, a6⟩
  · -- play
    unfold play playBody
    dsimp only
    split_ifs with h1
    · exact ⟨a1, a2, a3, a4, a5, a6⟩
    · apply gain_xp_ranged
      refine ⟨a1, a2, le_min (by norm_num) (by nlinarith), min_le_left _ _,
        le_max_left _ _, max_le ham (by nlinarith)⟩
  · -- rest
    unfold rest restBody
    dsimp only
    refine ⟨a1, a2, le_min (by norm_num) (by nlinarith), min_le_left _ _,
      le_min ham (by nlinarith), min_le_left _ _⟩
  · -- do_job
    unfold do_job doJobBody
    dsimp only
    split_ifs with h1 h2
    · exact ⟨a1, a2, a3, a4, a5, a6⟩
    · exact ⟨a1, a2, a3, a4, a5, a6⟩
    · apply gain_xp_ranged
      have hmjq : (0 : ℚ) ≤ (mj : ℚ) * (3 / 10) := by
        have : (0 : ℚ) < (mj : ℚ) := by exact_mod_cast lt_of_not_le h1
        nlinarith
      refine ⟨a1, a2, a3, a4, le_max_left _ _, max_le ham (by nlinarith)⟩
  · -- buy_item: no refresh, so bounds come from the original pet
    obtain ⟨b1, b2, b3, b4, b5, b6⟩ := hp
    have hbm : (0 : ℚ) ≤ p.max_energy := le_trans b5 b6
    unfold buy_item
    rcases hit : SHOP_ITEMS k with _ | item
    · exact ⟨b1, b2, b3, b4, b5, b6⟩
    · dsimp only
      split_ifs with h1 h2 h3 h4 h5
      · exact ⟨b1, b2, b3, b4, b5, b6⟩
      · -- food
        apply gain_xp_ranged
        have hir : (0 : ℚ) ≤ item.hunger_restore := by
          unfold SHOP_ITEMS at hit
          split at hit <;> simp_all <;> norm_num [← hit]
        have hih : (0 : ℚ) ≤ item.happiness := by
          unfold SHOP_ITEMS at hit
          split at hit <;> simp_all <;> norm_num [← hit]
        refine ⟨le_max_left _ _, max_le (by norm_num) (by linarith),
          le_min (by norm_num) (by linarith), min_le_left _ _, b5, b6⟩
      · -- toy, too tired: only coins changed
        exact ⟨b1, b2, b3, b4, b5, b6⟩
      · -- toy
        apply gain_xp_ranged
        have hic : (0 : ℚ) ≤ item.energy_cost := by
          unfold SHOP_ITEMS at hit
          split at hit <;> simp_all <;> norm_num [← hit]
        have hih : (0 : ℚ) ≤ item.happiness := by
          unfold SHOP_ITEMS at hit
          split at hit <;> simp_all <;> norm_num [← hit]
        refine ⟨b1, b2, le_min (by norm_num) (by linarith), min_le_left _ _,
          le_max_left _ _, max_le hbm (by linarith)⟩
      · -- energy_drink
        apply gain_xp_ranged
        have hie : (0 : ℚ) ≤ item.energy_restore := by
          unfold SHOP_ITEMS at hit
          split at hit <;> simp_all <;> norm_num [← hit]
        have hih : (0 : ℚ) ≤ item.happiness := by
          unfold SHOP_ITEMS at hit
          split at hit <;> simp_all <;> norm_num [← hit]
        refine ⟨b1, b2, le_min (by norm_num) (by linarith), min_le_left _ _,
          le_min hbm (by linarith), min_le_left _ _⟩
      · exact ⟨b1, b2, b3, b4, b5, b6⟩
  · -- daily_reward: no gauge attribute changes on either branch
    obtain ⟨b1, b2, b3, b4, b5, b6⟩ := hp
    unfold daily_reward
    dsimp only
    split_ifs <;> exact ⟨b1, b2, b3, b4, b5, b6⟩

/-- C3 witness: the amended clamp theorem applied to an in-range pet with
nonnegative arguments for every action. -/
theorem c3_clamp_invariants_witness :
    Ranged petC3 ∧ (0 : ℤ) ≤ 20 ∧ (0 : ℤ) ≤ 10 ∧ (0 : ℤ) ≤ 30
    ∧ (Ranged (feed petC3 0 none false 20).1 ∧ Ranged (play petC3 0 none 10).1
       ∧ Ranged (rest petC3 0 none 30).1 ∧ Ranged (do_job petC3 0 none 30).1
       ∧ Ranged (buy_item petC3 "food").1
       ∧ Ranged (daily_reward (fun _ => "day0") 0 petC3).1) :=
  ⟨by norm_num [Ranged, petC3], by decide, by decide, by decide,
   c3_clamp_invariants petC3 0 none false 20 10 30 30 "food" (fun _ => "day0")
     (by norm_num [Ranged, petC3]) (by decide) (by decide) (by decide)⟩

/-- Serialization followed by deserialization of one pet restores every field
exactly, last_updated included, because load re-reads the stored timestamp. -/
theorem loadPet_to_dict (now : ℚ) (p : Pet) : loadPet now (to_dict p) = p := rfl

theorem setPet_not_found (acc : World) (n : String) (p : Pet)
    (h : lookupPet acc n = none) : setPet acc n p = acc ++ [(n, p)] := by
  induction acc with
  | nil => rfl
  | cons e rest ih =>
    rcases e with ⟨m, q⟩
    unfold lookupPet at h
    unfold setPet
    by_cases hm : m = n
    · rw [if_pos hm] at h
      cases h
    · rw [if_neg hm] at h
      rw [if_neg hm, ih h]
      rfl

theorem lookupPet_append_single (acc : World) (n nn : String) (p : Pet)
    (h : lookupPet acc nn = none) (hne : n ≠ nn) :
    lookupPet (acc ++ [(n, p)]) nn = none := by
  induction acc with
  | nil => simp [lookupPet, hne]
  | cons e rest ih =>
    rcases e with ⟨m, q⟩
    simp only [List.cons_append, lookupPet] at h ⊢
    by_cases hm : m = nn
    · rw [if_pos hm] at h
      cases h
    · rw [if_neg hm] at h ⊢
      exact ih h

theorem loadWorld_saveWorld_aux (now : ℚ) :
    ∀ (w acc : World), (w.map Prod.fst).Nodup →
      (∀ n ∈ w.map Prod.fst, lookupPet acc n = none) →
      loadWorld now acc (saveWorld w) = acc ++ w := by
  intro w
  induction w with
  | nil =>
    intro acc _ _
    simp [loadWorld, saveWorld]
  | cons e rest ih =>
    intro acc hnd hdisj
    rcases e with ⟨n, p⟩
    have hn : lookupPet acc n = none := hdisj n (by simp)
    have hstep : setPet acc n (loadPet now (to_dict p)) = acc ++ [(n, p)] := by
      rw [loadPet_to_dict, setPet_not_found acc n p hn]
    simp only [saveWorld, loadWorld, List.map_cons, List.foldl_cons] at ih ⊢
    rw [hstep]
    have hnd' : (rest.map Prod.fst).Nodup := (List.nodup_cons.mp hnd).2
    have hmem : n ∉ rest.map Prod.fst := (List.nodup_cons.mp hnd).1
    have hdisj' : ∀ nn ∈ rest.map Prod.fst, lookupPet (acc ++ [(n, p)]) nn = none := by
      intro nn hnn
      refine lookupPet_append_single acc n nn p (hdisj nn (by simp [hnn])) ?_
      intro hcontra
      exact hmem (hcontra ▸ hnn)
    rw [ih (acc ++ [(n, p)]) hnd' hdisj']
    simp

/-- C4: saving a registry and loading the document into a fresh registry
reproduces every pet exactly — every attribute matches, last_updated included
(in this implementation load restores the stored timestamp verbatim and does
not re-run decay), which is stronger than the claimed tolerance. The key-nodup
hypothesis records that the source registry is a dict. -/
theorem c4_roundtrip (now : ℚ) (w : World) (hnd : (w.map Prod.fst).Nodup) :
    loadWorld now [] (saveWorld w) = w := by
  have h := loadWorld_saveWorld_aux now w [] hnd (by intro n _; rfl)
  simpa using h

/-- A pet with distinctive values in every field. -/
def petC4 : Pet :=
  { name := some "puff", species := some "dragon", hunger := 17/2, happiness := 93, energy := 154,
    max_energy := 200, level := 7, xp := 42, coins := 1234, last_updated := 777777,
    evolve_at := 4, evolution := some "Elder Dragon", evolved := true, last_daily_claim := 5555,
    last_gift_time := 6666, last_gift_amount := 3 }

/-- C4 witness: a concrete one-pet registry survives the round-trip. -/
theorem c4_roundtrip_witness :
    ((([("puff", petC4)] : World).map Prod.fst).Nodup)
    ∧ loadWorld 5 [] (saveWorld [("puff", petC4)]) = [("puff", petC4)] :=
  ⟨by simp, c4_roundtrip 5 [("puff", petC4)] (by simp)⟩

/-- C5: one XP gain adds the amount to xp and then normalizes: per 100 xp
crossed the level rises by one and 20 bonus coins are granted, possibly several
times for one large gain; the pet becomes evolved exactly when some level-up
fired, it was not already evolved, and the resulting level reaches evolve_at
(and an already evolved pet stays evolved). -/
theorem c5_gain_xp_levels (p : Pet) (amount : ℤ) (h : 0 ≤ p.xp + amount) :
    (gain_xp p amount).1.xp = (p.xp + amount) % 100
    ∧ (gain_xp p amount).1.level = p.level + (p.xp + amount) / 100
    ∧ (gain_xp p amount).1.coins = p.coins + 20 * ((p.xp + amount) / 100)
    ∧ ((gain_xp p amount).1.evolved = true ↔
        (p.evolved = true ∨ (100 ≤ p.xp + amount ∧ p.evolve_at ≤ p.level + (p.xp + amount) / 100))) :=
  gain_xp_spec p amount h

/-- A level-1 pet with 30 xp and evolution threshold 3. -/
def petC5 : Pet :=
  { name := some "tom", species := some "cat", hunger := 50, happiness := 60, energy := 100,
    max_energy := 100, level := 1, xp := 30, coins := 0, last_updated := 0, evolve_at := 3,
    evolution := some "Big Cat", evolved := false, last_daily_claim := 0, last_gift_time := 0,
    last_gift_amount := 0 }

/-- C5 witness: a single gain of 250 xp on a pet at 30 xp crosses 100 twice:
level 1 to 3, 40 bonus coins, 80 xp left, and the pet evolves at threshold 3. -/
theorem c5_gain_xp_levels_witness :
    0 ≤ petC5.xp + 250
    ∧ ((gain_xp petC5 250).1.xp = (petC5.xp + 250) % 100
       ∧ (gain_xp petC5 250).1.level = petC5.level + (petC5.xp + 250) / 100
       ∧ (gain_xp petC5 250).1.coins = petC5.coins + 20 * ((petC5.xp + 250) / 100)
       ∧ ((gain_xp petC5 250).1.evolved = true ↔
           (petC5.evolved = true ∨ (100 ≤ petC5.xp + 250
             ∧ petC5.evolve_at ≤ petC5.level + (petC5.xp + 250) / 100)))) :=
  ⟨by decide, c5_gain_xp_levels petC5 250 (by decide)⟩

/-- The xp normalization range documented for a pet between actions. -/
def XpInRange (p : Pet) : Prop := 0 ≤ p.xp ∧ p.xp < 100

theorem gain_xp_xp_range (p : Pet) (a : ℤ) (h0 : 0 ≤ p.xp) (ha : 0 ≤ a) :
    XpInRange (gain_xp p a).1 := by
  obtain ⟨hx, _, _, _⟩ := gain_xp_spec p a (by omega)
  unfold XpInRange
  rw [hx]
  omega

/-- A pet at 0 xp with full energy. -/
def petC6 : Pet :=
  { name := some "tom", species := some "cat", hunger := 50, happiness := 60, energy := 100,
    max_energy := 100, level := 1, xp := 0, coins := 0, last_updated := 0, evolve_at := 5,
    evolution := some "Big Cat", evolved := false, last_daily_claim := 0, last_gift_time := 0,
    last_gift_amount := 0 }

/-- C6 counterexample: play accepts a negative minutes argument (the energy
precondition passes because the cost is negative), and its xp gain
15 + int(minutes/5) is then negative: play(-100) on a pet at xp = 0 succeeds
and leaves xp = -5, outside the claimed [0, 100) range. -/
theorem c6_counterexample :
    (0 ≤ petC6.xp ∧ petC6.xp < 100)
    ∧ (play petC6 0 none (-100)).2.1 = true
    ∧ (play petC6 0 none (-100)).1.xp = -5 := by
  refine ⟨by decide, ?_, ?_⟩ <;>
    norm_num [play, playBody, refresh, petC6, gain_xp, gainLoopFuel] <;>
    decide

/-- C6 (amended): starting from 0 ≤ xp < 100, every action call leaves
0 ≤ xp < 100 whether it succeeds or fails, provided the minutes argument of play is
nonnegative; every other action needs no restriction because its xp gain is
never negative (do_job rejects non-positive durations and the other gains are
positive constants). -/
theorem c6_xp_normalized (p : Pet) (now : ℚ) (g : Option (ℤ × ℚ)) (ui : Bool)
    (fs m mr mj : ℤ) (k : String) (ld : ℚ → String)
    (h0 : 0 ≤ p.xp) (h1 : p.xp < 100) (hm : 0 ≤ m) :
    XpInRange (feed p now g ui fs).1 ∧ XpInRange (play p now g m).1
    ∧ XpInRange (rest p now g mr).1 ∧ XpInRange (do_job p now g mj).1
    ∧ XpInRange (buy_item p k).1 ∧ XpInRange (daily_reward ld now p).1 := by
  have hq0 : 0 ≤ (refresh p now g).xp := by rw [refresh_xp]; exact h0
  have hq1 : (refresh p now g).xp < 100 := by rw [refresh_xp]; exact h1
  refine ⟨?_, ?_, ?_, ?_, ?_, ?_⟩
  · -- feed
    unfold feed feedBody
    dsimp only
    split_ifs with hc1 hc2
    · exact ⟨hq0, hq1⟩
    all_goals exact gain_xp_xp_range _ 10 hq0 (by norm_num)
  · -- play
    unfold play playBody
    dsimp only
    split_ifs with hc1
    · exact ⟨hq0, hq1⟩
    · exact gain_xp_xp_range _ (15 + Int.tdiv m 5) hq0
        (by have := Int.tdiv_nonneg hm (by norm_num : (0:ℤ) ≤ 5); omega)
  · -- rest
    unfold rest restBody
    dsimp only
    exact ⟨hq0, hq1⟩
  · -- do_job
    unfold do_job doJobBody
    dsimp only
    split_ifs with hc1 hc2
    · exact ⟨hq0, hq1⟩
    · exact ⟨hq0, hq1⟩
    · exact gain_xp_xp_range _ (max 1 (Int.fdiv mj 10)) hq0
        (le_trans (by norm_num) (le_max_left 1 _))
  · -- buy_item
    unfold buy_item
    rcases hit : SHOP_ITEMS k with _ | item
    · exact ⟨h0, h1⟩
    · dsimp only
      split_ifs with hc1 hc2 hc3 hc4 hc5
      · exact ⟨h0, h1⟩
      · exact gain_xp_xp_range _ 5 h0 (by norm_num)
      · exact ⟨h0, h1⟩
      · exact gain_xp_xp_range _ 10 h0 (by norm_num)
      · exact gain_xp_xp_range _ 7 h0 (by norm_num)
      · exact ⟨h0, h1⟩
  · -- daily_reward
    unfold daily_reward
    dsimp only
    split_ifs <;> exact ⟨h0, h1⟩

/-- C6 witness: the amended xp-range theorem applied to a pet at 0 xp with
nonnegative play minutes. -/
theorem c6_xp_normalized_witness :
    (0 ≤ petC6.xp ∧ petC6.xp < 100 ∧ (0 : ℤ) ≤ 10)
    ∧ (XpInRange (feed petC6 0 none false 20).1 ∧ XpInRange (play petC6 0 none 10).1
       ∧ XpInRange (rest petC6 0 none 30).1 ∧ XpInRange (do_job petC6 0 none 30).1
       ∧ XpInRange (buy_item petC6 "food").1
       ∧ XpInRange (daily_reward (fun _ => "day0") 0 petC6).1) :=
  ⟨by decide,
   c6_xp_normalized petC6 0 none false 20 10 30 30 "food" (fun _ => "day0")
     (by decide) (by decide) (by decide)⟩

theorem daily_reward_success_shape (ld : ℚ → String) (now : ℚ) (p : Pet)
    (h : (daily_reward ld now p).2.1 = true) :
    (daily_reward ld now p).1
      = { p with coins := p.coins + DAILY_REWARD_COINS, last_daily_claim := now } := by
  unfold daily_reward at h ⊢
  dsimp only at h ⊢
  split_ifs at h ⊢
  · rfl
  · rfl

/-- C7: once daily_reward succeeds, a second call whose wall clock maps to the
same local calendar date fails with the already-claimed message and changes
nothing (coins and last_daily_claim included); conversely a call made when
there is no previous claim or the previous claim maps to a different date
succeeds, adds the fixed 20 coins, and records the claim timestamp. The
hypothesis now1 ≠ 0 reflects that a claim stored at clock value 0 reads as
never-claimed. -/
theorem c7_daily_reward (ld : ℚ → String) (p : Pet) (now1 now2 : ℚ)
    (h1 : (daily_reward ld now1 p).2.1 = true)
    (h2 : ld now2 = ld now1) (h3 : now1 ≠ 0) :
    ((daily_reward ld now2 (daily_reward ld now1 p).1).2.1 = false
     ∧ (daily_reward ld now2 (daily_reward ld now1 p).1).2.2
         = "Daily reward already claimed today."
     ∧ (daily_reward ld now2 (daily_reward ld now1 p).1).1 = (daily_reward ld now1 p).1)
    ∧ ((p.last_daily_claim = 0 ∨ ld p.last_daily_claim ≠ ld now1) →
       ((daily_reward ld now1 p).2.1 = true
        ∧ (daily_reward ld now1 p).1.coins = p.coins + DAILY_REWARD_COINS
        ∧ (daily_reward ld now1 p).1.last_daily_claim = now1)) := by
  have hshape := daily_reward_success_shape ld now1 p h1
  constructor
  · rw [hshape]
    unfold daily_reward
    dsimp only
    rw [if_pos h3, h2]
    rw [if_neg (by simp)]
    exact ⟨rfl, rfl, rfl⟩
  · intro hcase
    have hcond : (if p.last_daily_claim ≠ 0 then some (ld p.last_daily_claim) else none)
        ≠ some (ld now1) := by
      rcases hcase with hz | hne
      · rw [if_neg (by simp [hz])]
        simp
      · by_cases hz : p.last_daily_claim ≠ 0
        · rw [if_pos hz]
          simp [hne]
        · rw [if_neg hz]
          simp
    unfold daily_reward
    dsimp only
    rw [if_pos hcond]
    exact ⟨rfl, rfl, rfl⟩

/-- A pet that has never claimed the daily reward. -/
def petC7 : Pet :=
  { name := some "tom", species := some "cat", hunger := 50, happiness := 60, energy := 100,
    max_energy := 100, level := 1, xp := 0, coins := 0, last_updated := 0, evolve_at := 5,
    evolution := some "Big Cat", evolved := false, last_daily_claim := 0, last_gift_time := 0,
    last_gift_amount := 0 }

/-- C7 witness: under a date function that maps every clock value to the same
day, the first claim at clock 100 succeeds and the repeated claim fails with
everything unchanged. -/
theorem c7_daily_reward_witness :
    (daily_reward (fun _ => "day0") 100 petC7).2.1 = true
    ∧ (100 : ℚ) ≠ 0
    ∧ (((daily_reward (fun _ => "day0") 100 (daily_reward (fun _ => "day0") 100 petC7).1).2.1 = false
        ∧ (daily_reward (fun _ => "day0") 100 (daily_reward (fun _ => "day0") 100 petC7).1).2.2
            = "Daily reward already claimed today."
        ∧ (daily_reward (fun _ => "day0") 100 (daily_reward (fun _ => "day0") 100 petC7).1).1
            = (daily_reward (fun _ => "day0") 100 petC7).1)
       ∧ ((petC7.last_daily_claim = 0 ∨ (fun (_ : ℚ) => "day0") petC7.last_daily_claim ≠ (fun (_ : ℚ) => "day0") 100) →
          ((daily_reward (fun _ => "day0") 100 petC7).2.1 = true
           ∧ (daily_reward (fun _ => "day0") 100 petC7).1.coins = petC7.coins + DAILY_REWARD_COINS
           ∧ (daily_reward (fun _ => "day0") 100 petC7).1.last_daily_claim = 100))) := by
  have hfirst : (daily_reward (fun _ => "day0") 100 petC7).2.1 = true := by
    norm_num [daily_reward, petC7]
    simp
  exact ⟨hfirst, by norm_num,
    c7_daily_reward (fun _ => "day0") petC7 100 100 hfirst rfl (by norm_num)⟩

@[simp] theorem refresh_self (p : Pet) (g : Option (ℤ × ℚ)) :
    refresh p p.last_updated g = p := by
  unfold refresh
  simp

/-- A pet with full energy but 95 xp, so the work xp pushes it over 100. -/
def petC8 : Pet :=
  { name := some "tom", species := some "cat", hunger := 50, happiness := 60, energy := 100,
    max_energy := 100, level := 1, xp := 95, coins := 0, last_updated := 0, evolve_at := 999,
    evolution := some "Big Cat", evolved := false, last_daily_claim := 0, last_gift_time := 0,
    last_gift_amount := 0 }

/-- C8 counterexample: on a pet with energy = 100, xp = 95 and no elapsed
time, do_job(100) succeeds but the 10 work xp crosses 100, so the level-up
bonus makes coins rise by 40 (20 earned + 20 bonus), not exactly 20, and xp
moves from 95 to 5, not up by exactly 10. -/
theorem c8_counterexample :
    petC8.energy = 100 ∧ petC8.xp = 95 ∧ petC8.coins = 0
    ∧ (do_job petC8 petC8.last_updated none 100).2.1 = true
    ∧ (do_job petC8 petC8.last_updated none 100).1.coins = 40
    ∧ (do_job petC8 petC8.last_updated none 100).1.xp = 5 := by
  have h20 : Int.tdiv 100 5 = 20 := by decide
  have h10 : max 1 (Int.fdiv 100 10) = 10 := by decide
  refine ⟨by decide, by decide, by decide, ?_, ?_, ?_⟩
  all_goals (
    unfold do_job doJobBody;
    rw [refresh_self];
    dsimp only;
    rw [if_neg (by norm_num : ¬ ((100 : ℤ) ≤ 0)),
      if_neg (show ¬ (petC8.energy < ((100 : ℤ) : ℚ) * (3 / 10)) by norm_num [petC8]),
      h20, h10];
    try decide)

/-- C8 (amended): do_job(100) fails whenever post-refresh energy is below the
required 30; and on a pet with energy = 100, no elapsed time, and an xp value
that does not cross 100 when the 10 work xp is added, it succeeds leaving
energy = 70, coins up by exactly 20, and xp up by exactly 10. The xp bound is
forced by the counterexample: at xp ≥ 90 the level-up coin bonus also fires. -/
theorem c8_work_scenario :
    (∀ (p : Pet) (now : ℚ) (g : Option (ℤ × ℚ)),
       (refresh p now g).energy < 30 → (do_job p now g 100).2.1 = false)
    ∧ (∀ (p : Pet) (g : Option (ℤ × ℚ)), p.energy = 100 → 0 ≤ p.xp → p.xp + 10 < 100 →
       ((do_job p p.last_updated g 100).2.1 = true
        ∧ (do_job p p.last_updated g 100).1.energy = 70
        ∧ (do_job p p.last_updated g 100).1.coins = p.coins + 20
        ∧ (do_job p p.last_updated g 100).1.xp = p.xp + 10)) := by
  constructor
  · intro p now g h
    unfold do_job doJobBody
    dsimp only
    rw [if_neg (by norm_num : ¬ ((100 : ℤ) ≤ 0))]
    rw [if_pos (by push_cast; linarith)]
  · intro p g he hx0 hx1
    have h20 : Int.tdiv 100 5 = 20 := by decide
    have h10 : max 1 (Int.fdiv 100 10) = 10 := by decide
    unfold do_job doJobBody
    rw [refresh_self]
    dsimp only
    rw [if_neg (by norm_num : ¬ ((100 : ℤ) ≤ 0)), he,
      if_neg (by push_cast; norm_num : ¬ ((100 : ℚ) < ((100 : ℤ) : ℚ) * (3 / 10))), h20, h10]
    obtain ⟨hxp, hlv, hco, hev⟩ := gain_xp_spec
      { p with
        energy := max 0 (100 - ((100 : ℤ) : ℚ) * (3 / 10)),
        coins := p.coins + 20 }
      10 (by dsimp only; omega)
    refine ⟨rfl, ?_, ?_, ?_⟩
    · rw [gain_xp_energy]
      push_cast
      norm_num
    · rw [hco]
      dsimp only
      omega
    · rw [hxp]
      dsimp only
      omega

/-- A fresh pet with full energy and low xp. -/
def petC8W : Pet :=
  { name := some "tom", species := some "cat", hunger := 50, happiness := 60, energy := 100,
    max_energy := 100, level := 1, xp := 0, coins := 50, last_updated := 0, evolve_at := 999,
    evolution := some "Big Cat", evolved := false, last_daily_claim := 0, last_gift_time := 0,
    last_gift_amount := 0 }

/-- A pet too tired to work 100 minutes. -/
def petC8T : Pet :=
  { name := some "tom", species := some "cat", hunger := 50, happiness := 60, energy := 10,
    max_energy := 100, level := 1, xp := 0, coins := 50, last_updated := 0, evolve_at := 999,
    evolution := some "Big Cat", evolved := false, last_daily_claim := 0, last_gift_time := 0,
    last_gift_amount := 0 }

/-- C8 witness: both halves of the amended theorem at concrete pets. -/
theorem c8_work_scenario_witness :
    ((refresh petC8T 0 none).energy < 30 ∧ (do_job petC8T 0 none 100).2.1 = false)
    ∧ (petC8W.energy = 100 ∧ 0 ≤ petC8W.xp ∧ petC8W.xp + 10 < 100
       ∧ ((do_job petC8W petC8W.last_updated none 100).2.1 = true
          ∧ (do_job petC8W petC8W.last_updated none 100).1.energy = 70
          ∧ (do_job petC8W petC8W.last_updated none 100).1.coins = petC8W.coins + 20
          ∧ (do_job petC8W petC8W.last_updated none 100).1.xp = petC8W.xp + 10)) := by
  have htired : (refresh petC8T 0 none).energy < 30 := by
    have h : refresh petC8T 0 none = petC8T := by
      unfold refresh
      norm_num [petC8T]
    rw [h]
    norm_num [petC8T]
  exact ⟨⟨htired, c8_work_scenario.1 petC8T 0 none htired⟩,
    by decide, by decide, by decide,
    c8_work_scenario.2 petC8W none (by decide) (by decide) (by decide)⟩

theorem lookupPet_setPet (w : World) (n : String) (p : Pet) :
    lookupPet (setPet w n p) n = some p := by
  induction w with
  | nil => simp [setPet, lookupPet]
  | cons e rest ih =>
    rcases e with ⟨m, q⟩
    simp only [setPet]
    by_cases hm : m = n
    · rw [if_pos hm]
      simp [lookupPet]
    · rw [if_neg hm]
      simp only [lookupPet]
      rw [if_neg hm]
      exact ih

/-- C9: pet creation lowercases the species, and an unknown (lowercased)
species silently falls back to the attributes of the cat template instead of
failing; creation fails exactly when the stripped name is empty or already
taken. -/
theorem c9_create_pet (w : World) (now : ℚ) (name species : String) :
    ((world_create_pet w now name species).2.1 = false ↔
      ((pyStrip name).isEmpty = true ∨ (lookupPet w (pyStrip name)).isSome = true))
    ∧ ((world_create_pet w now name species).2.1 = true →
       (lookupPet (world_create_pet w now name species).1 (pyStrip name)
          = some (factory_create_pet now (pyStrip name) species)
        ∧ (factory_create_pet now (pyStrip name) species).species = some (pyLower species)
        ∧ (TEMPLATES (pyLower species) = none →
            (factory_create_pet now (pyStrip name) species).max_energy = 100
            ∧ (factory_create_pet now (pyStrip name) species).hunger = 30
            ∧ (factory_create_pet now (pyStrip name) species).happiness = 60
            ∧ (factory_create_pet now (pyStrip name) species).evolve_at = 5
            ∧ (factory_create_pet now (pyStrip name) species).evolution = some "Big Cat"))) := by
  unfold world_create_pet
  dsimp only
  split_ifs with he hd
  · constructor
    · simp [he]
    · intro h
      simp at h
  · constructor
    · simp [he, hd]
    · intro h
      simp at h
  · constructor
    · simp [he, hd]
    · intro _
      refine ⟨lookupPet_setPet w (pyStrip name) _, rfl, ?_⟩
      intro htm
      unfold factory_create_pet
      dsimp only
      rw [htm]
      exact ⟨rfl, rfl, rfl, rfl, rfl⟩

/-- C9 witness: creating "Bob" the "Unicorn" in an empty registry succeeds and
stores a pet with the attributes of the cat template and the lowercased species. -/
theorem c9_create_pet_witness :
    (world_create_pet [] 0 "Bob" "Unicorn").2.1 = true
    ∧ (lookupPet (world_create_pet [] 0 "Bob" "Unicorn").1 (pyStrip "Bob")
        = some (factory_create_pet 0 (pyStrip "Bob") "Unicorn")
       ∧ (factory_create_pet 0 (pyStrip "Bob") "Unicorn").species = some (pyLower "Unicorn")
       ∧ (TEMPLATES (pyLower "Unicorn") = none →
           (factory_create_pet 0 (pyStrip "Bob") "Unicorn").max_energy = 100
           ∧ (factory_create_pet 0 (pyStrip "Bob") "Unicorn").hunger = 30
           ∧ (factory_create_pet 0 (pyStrip "Bob") "Unicorn").happiness = 60
           ∧ (factory_create_pet 0 (pyStrip "Bob") "Unicorn").evolve_at = 5
           ∧ (factory_create_pet 0 (pyStrip "Bob") "Unicorn").evolution = some "Big Cat")) :=
  ⟨by decide, (c9_create_pet [] 0 "Bob" "Unicorn").2 (by decide)⟩

/-- The document entry with every field absent. -/
def emptyDoc : PetDoc :=
  { name := none, species := none, hunger := none, happiness := none, energy := none,
    max_energy := none, level := none, xp := none, coins := none, last_updated := none,
    evolve_at := none, evolution := none, evolved := none, last_daily_claim := none,
    last_gift_time := none, last_gift_amount := none }

/-- A document entry whose stored last_updated cannot be converted by float(). -/
def docMalformed : PetDoc := { emptyDoc with last_updated := some none }

/-- C10: loading a document entry copies every present field verbatim with no
clamping or range validation (so out-of-range stored values flow straight into
the Pet), while absent fields take the documented defaults and only an
unconvertible last_updated falls back to the current time. -/
theorem c10_load_verbatim :
    (∀ (now : ℚ) (n s : String) (hu ha en me : ℚ) (lv xq co : ℤ) (lu : ℚ) (ea : ℤ)
       (ev : String) (evd : Bool) (ldc lgt : ℚ) (lga : ℤ),
       loadPet now
         { name := some n, species := some s, hunger := some hu, happiness := some ha,
           energy := some en, max_energy := some me, level := some lv, xp := some xq,
           coins := some co, last_updated := some (some lu), evolve_at := some ea,
           evolution := some ev, evolved := some evd, last_daily_claim := some ldc,
           last_gift_time := some lgt, last_gift_amount := some lga }
         = { name := some n, species := some s, hunger := hu, happiness := ha, energy := en,
             max_energy := me, level := lv, xp := xq, coins := co, last_updated := lu,
             evolve_at := ea, evolution := some ev, evolved := evd, last_daily_claim := ldc,
             last_gift_time := lgt, last_gift_amount := lga })
    ∧ (∀ now : ℚ, loadPet now emptyDoc
        = { name := none, species := none, hunger := 50, happiness := 50, energy := 100,
            max_energy := 100, level := 1, xp := 0, coins := 50, last_updated := now,
            evolve_at := 999, evolution := none, evolved := false, last_daily_claim := 0,
            last_gift_time := 0, last_gift_amount := 0 })
    ∧ (∀ (now : ℚ) (d : PetDoc), d.last_updated = some none →
        (loadPet now d).last_updated = now) := by
  refine ⟨fun _ _ _ _ _ _ _ _ _ _ _ _ _ _ _ _ _ => rfl, fun _ => rfl, ?_⟩
  intro now d h
  unfold loadPet
  dsimp only
  rw [h]

/-- C10 witness: a malformed stored timestamp falls back to the load-time
clock, and an entry holding out-of-range values (hunger 150, negative
happiness and coins, xp 250) loads verbatim. -/
theorem c10_load_verbatim_witness :
    docMalformed.last_updated = some none
    ∧ (loadPet 7 docMalformed).last_updated = 7
    ∧ loadPet 0
        { name := some "z", species := some "cat", hunger := some 150, happiness := some (-3),
          energy := some 999, max_energy := some 100, level := some 0, xp := some 250,
          coins := some (-5), last_updated := some (some 123), evolve_at := some 1,
          evolution := some "Big Cat", evolved := some true, last_daily_claim := some 4,
          last_gift_time := some 6, last_gift_amount := some 2 }
        = { name := some "z", species := some "cat", hunger := 150, happiness := -3,
            energy := 999, max_energy := 100, level := 0, xp := 250, coins := -5,
            last_updated := 123, evolve_at := 1, evolution := some "Big Cat", evolved := true,
            last_daily_claim := 4, last_gift_time := 6, last_gift_amount := 2 } :=
  ⟨rfl, c10_load_verbatim.2.2 7 docMalformed rfl,
   c10_load_verbatim.1 0 "z" "cat" 150 (-3) 999 100 0 250 (-5) 123 1 "Big Cat" true 4 6 2⟩

end Petverse
